import Mathlib

/-!
Verification of go-htmx-render: the task handlers of `main.go`.

A shallow embedding of `src/main.go` (a task list served over HTTP and stored in one
PostgreSQL table) and the properties of its handlers.

* Go strings are Lean `String`s, Go `error` values are `Option String` (`none` is `nil`,
  `some msg` an error whose `Error()` text is `msg`).
* What the handlers call in the Go standard library (`net/http`, `net/url`, `strconv`,
  `database/sql`, `html/template`) is embedded as far as the handlers use it.
* What a request cannot determine (the clock, the answer of the database server, the
  template file) is an explicit input, `Env`; for `main` it is `Sys`.
* A handler takes the state behind the global `db` and the response writer, and returns
  both as it leaves them.
-/

set_option autoImplicit false

namespace GoHtmxRender

deriving instance DecidableEq for Except

/-! ## Go builtins and `strconv` -/

/-- Go builtin `len` on a string: its length in bytes. -/
def len (s : String) : Nat := s.utf8ByteSize

/-- Message of `errEmptyString = errors.New("empty string")` (main.go:20). -/
def errEmptyString : String := "empty string"

/-- Translation of `checkEmptyString(str ...string) error` (main.go:160-167): the first
    argument of length zero makes it return `errEmptyString`, otherwise `nil`. -/
def checkEmptyString : List String → Option String
  | [] => none
  | s :: rest => if len s == 0 then some errEmptyString else checkEmptyString rest

/-- Go `strconv.NumError`: the failed function, its input and the reason. -/
structure NumError where
  Func : String
  Num : String
  Err : String
deriving DecidableEq, Repr

/-- Message of `strconv.ErrSyntax`. -/
def ErrSyntax : String := "invalid syntax"

/-- Message of `strconv.ErrRange`. -/
def ErrRange : String := "value out of range"

/-- Go `(*NumError).Error`; `quote` stands for `strconv.Quote`. -/
def NumError.Error (quote : String → String) (e : NumError) : String :=
  "strconv." ++ e.Func ++ ": parsing " ++ quote e.Num ++ ": " ++ e.Err

/-- Largest `uint64`. -/
def maxUint64 : Nat := 2 ^ 64 - 1

/-- Value `cutoff` of `strconv.ParseUint` at base 10: the smallest number whose product
    with 10 exceeds `maxUint64`. -/
def cutoff10 : Nat := maxUint64 / 10 + 1

/-- Go `lower(c)` of package `strconv`: `c | ('x' - 'X')` on a byte. -/
def lower (c : Nat) : Nat := c ||| 32

/-- One iteration of the digit loop of `strconv.ParseUint(s, 10, 64)` on the byte `c`
    with accumulator `n`: the new accumulator, or the error message. A character
    outside ASCII is a run of bytes `≥ 0x80`, each of which takes the `default` branch,
    as the first of them does here. -/
def parseUintStep (c : Char) (n : Nat) : Except String Nat :=
  let b := c.toNat
  let digit : Option Nat :=
    if 48 ≤ b ∧ b ≤ 57 then some (b - 48)
    else if b < 128 ∧ 97 ≤ lower b ∧ lower b ≤ 122 then some (lower b - 97 + 10)
    else none
  match digit with
  | none => .error ErrSyntax
  | some d =>
    if d ≥ 10 then .error ErrSyntax
    else if n ≥ cutoff10 then .error ErrRange
    else
      let n10 := n * 10
      let n1 := (n10 + d) % 2 ^ 64
      if n1 < n10 ∨ n1 > maxUint64 then .error ErrRange else .ok n1

/-- The digit loop of `strconv.ParseUint(s, 10, 64)`. -/
def parseUintLoop : List Char → Nat → Except String Nat
  | [], n => .ok n
  | c :: cs, n =>
    match parseUintStep c n with
    | .error e => .error e
    | .ok n1 => parseUintLoop cs n1

/-- Go `strconv.ParseUint(s, 10, 64)` as called at main.go:109 and main.go:145. -/
def ParseUint (s : String) : Except NumError Nat :=
  if s = "" then .error ⟨"ParseUint", s, ErrSyntax⟩
  else
    match parseUintLoop s.toList 0 with
    | .error e => .error ⟨"ParseUint", s, e⟩
    | .ok n => .ok n

/-- Value of a run of decimal digits read after the number `n`: what the digit loop of
    `ParseUint` computes as long as nothing overflows. -/
def decimalValue (cs : List Char) (n : Nat) : Nat :=
  cs.foldl (fun n c => n * 10 + (c.toNat - 48)) n

/-! ## `net/url` and `net/http` -/

/-- Go `url.Values` and `http.Header`: a map from a key to its values, here an association
    list read at the first entry of a key. -/
abbrev Values := List (String × List String)

/-- Go `Values.Get`: the first value of `key`, or `""` when the key has none. -/
def Values.Get (v : Values) (key : String) : String :=
  match v.lookup key with
  | some (x :: _) => x
  | _ => ""

/-- Go `validHeaderFieldByte`: the characters of an HTTP token. -/
def validHeaderFieldByte (c : Char) : Bool :=
  c.isAlphanum || "!#$%&*+-.^_|~".toList.contains c || c == Char.ofNat 39 || c == Char.ofNat 96

/-- The case rewriting loop of `textproto.CanonicalMIMEHeaderKey`: the first letter and
    every letter after a hyphen in upper case, the others in lower case. -/
def canonicalLoop : Bool → List Char → List Char
  | _, [] => []
  | upper, c :: cs =>
    let c1 := if upper then c.toUpper else c.toLower
    c1 :: canonicalLoop (c1 == '-') cs

/-- Go `textproto.CanonicalMIMEHeaderKey`, applied by `Header.Set`, `Add`, `Get`, `Del`. -/
def CanonicalMIMEHeaderKey (s : String) : String :=
  if s.toList.all validHeaderFieldByte then String.mk (canonicalLoop true s.toList) else s

/-- Replace the values of key `k` in a header map. -/
def Values.put (h : Values) (k : String) (vs : List String) : Values :=
  (k, vs) :: h.filter (fun p => p.1 != k)

/-- Go `Header.Set`. -/
def Header.Set (h : Values) (key value : String) : Values :=
  h.put (CanonicalMIMEHeaderKey key) [value]

/-- Go `Header.Add`. -/
def Header.Add (h : Values) (key value : String) : Values :=
  h.put (CanonicalMIMEHeaderKey key)
    (((h.lookup (CanonicalMIMEHeaderKey key)).getD []) ++ [value])

/-- Go `Header.Del`. -/
def Header.Del (h : Values) (key : String) : Values :=
  h.filter (fun p => p.1 != CanonicalMIMEHeaderKey key)

/-- Go `Header.Get`. -/
def Header.Get (h : Values) (key : String) : String :=
  Values.Get h (CanonicalMIMEHeaderKey key)

/-- State of an `http.ResponseWriter`: the handler's header map, the status code and
    the header map as sent by the first `WriteHeader` (if any), and the body written. -/
structure ResponseWriter where
  header : Values := []
  status : Option Nat := none
  sentHeader : Values := []
  body : String := ""
deriving DecidableEq, Repr

/-- Go `ResponseWriter.WriteHeader`: the first call fixes status and header. -/
def ResponseWriter.WriteHeader (w : ResponseWriter) (code : Nat) : ResponseWriter :=
  match w.status with
  | some _ => w
  | none => { w with status := some code, sentHeader := w.header }

/-- Go `ResponseWriter.Write`: writes status 200 first when none was written. -/
def ResponseWriter.Write (w : ResponseWriter) (b : String) : ResponseWriter :=
  let w1 := w.WriteHeader 200
  { w1 with body := w1.body ++ b }

/-- Go `http.Error(w, error, code)`: plain text headers, the status, then the message
    followed by a newline (`fmt.Fprintln`). -/
def http.Error (w : ResponseWriter) (error : String) (code : Nat) : ResponseWriter :=
  let h := Header.Del w.header "Content-Length"
  let h := Header.Set h "Content-Type" "text/plain; charset=utf-8"
  let h := Header.Set h "X-Content-Type-Options" "nosniff"
  ({ w with header := h }.WriteHeader code).Write (error ++ "\n")

/-- Go `http.StatusOK`. -/
def StatusOK : Nat := 200

/-- Go `http.StatusBadRequest`. -/
def StatusBadRequest : Nat := 400

/-- Go `http.StatusInternalServerError`. -/
def StatusInternalServerError : Nat := 500

/-- What a handler reads of an `*http.Request`: the parsed URL query, the error returned
    by `r.ParseForm()` and the map `r.Form` that `ParseForm` fills. -/
structure Request where
  URLQuery : Values
  ParseForm : Option String
  Form : Values
deriving DecidableEq, Repr

/-! ## The table and `database/sql` -/

/-- Modelled from the spec: a row of the one persisted table,
    `tasks(id serial primary key, title text, created_at text, updated_at text null)`,
    whose declaration is not part of `main.go`. A `text` column without a `NOT NULL`
    constraint admits `NULL` (`none`); ids handed out by the `serial` sequence are
    natural numbers. -/
structure Row where
  id : Nat
  title : Option String
  created_at : Option String
  updated_at : Option String
deriving DecidableEq, Repr

/-- The four SQL statements of `main.go`, with their parameters. -/
inductive Stmt where
  /-- Text `SELECT id, title, created_at, updated_at FROM "tasks"` (main.go:30). -/
  | selectTasks
  /-- Text `INSERT INTO "tasks" (title, created_at) VALUES ($1, $2)` (main.go:91). -/
  | insertTask (title created_at : String)
  /-- Text `UPDATE "tasks" SET title=$1, updated_at=$2 WHERE id=$3` (main.go:127). -/
  | updateTask (title updated_at : String) (id : Nat)
  /-- Text `DELETE from "tasks" WHERE id=$1` (main.go:151). -/
  | deleteTask (id : Nat)
deriving DecidableEq, Repr

/-- Go `sql.NullString`. -/
structure NullString where
  String : String
  Valid : Bool
deriving DecidableEq, Repr

/-- Translation of `type Task struct` (main.go:22-27). -/
structure Task where
  Id : Nat
  Title : String
  CreatedAt : NullString
  UpdatedAt : NullString
deriving DecidableEq, Repr

/-- A parsed `*template.Template`: `Execute` maps the value bound to `"tasks"` to the bytes
    it writes into the buffer and the error it returns. The file `templates/index.html` is
    not part of `main.go`, so the template is an input. -/
structure Template where
  Execute : List Task → String × Option String

/-- What the handlers obtain from outside during one request. -/
structure Env where
  /-- Value of `time.Now().Format(time.RFC3339)`. -/
  now : String
  /-- Value the sequence behind `id serial` hands to an `INSERT` of this request. -/
  nextval : Nat
  /-- The error, if any, with which the driver or the server answer the statement of this
      request for a reason outside the table (connection, privileges, encoding, ...). -/
  dbErr : Option String
  /-- When `some (n, e)`: the result set breaks off after `n` rows and `rows.Err()` is `e`. -/
  rowsErr : Option (Nat × String)
  /-- Go `strconv.Quote`, used in the message of a `NumError`. -/
  quote : String → String
  /-- Outcome of `template.New(..).ParseFiles(filepath.Join("templates", "index.html"))`. -/
  ParseFiles : Except String Template

/-- The state behind the global `db *sql.DB` during a request, with two records kept for
    the statements of the properties: the SQL statements handed to `db.Query` and `db.Exec`
    so far and the task lists handed to `Template.Execute` so far. -/
structure World where
  tasks : List Row
  calls : List Stmt := []
  rendered : List (List Task) := []
deriving DecidableEq, Repr

/-- Message of the server on a second row with the same primary key. -/
def errDuplicateKey : String :=
  "pq: duplicate key value violates unique constraint \"tasks_pkey\""

/-- Effect of a statement the server accepts on the rows of `tasks`. -/
def applyStmt (env : Env) (tasks : List Row) : Stmt → List Row
  | .selectTasks => tasks
  | .insertTask title created_at =>
    tasks ++ [{ id := env.nextval, title := some title, created_at := some created_at,
                updated_at := none }]
  | .updateTask title updated_at id =>
    tasks.map (fun r =>
      if r.id = id then { r with title := some title, updated_at := some updated_at } else r)
  | .deleteTask id => tasks.filter (fun r => r.id ≠ id)

/-- The error, if any, with which the server refuses a statement because of the rows of
    `tasks`: an `INSERT` whose id is already taken violates the primary key. -/
def constraintErr (env : Env) (tasks : List Row) : Stmt → Option String
  | .insertTask _ _ => if tasks.any (fun r => r.id == env.nextval) then some errDuplicateKey else none
  | _ => none

/-- Go `db.Exec(query, args...)` for the statements above: the error it returns and the
    state after it. A statement that fails changes no row. -/
def World.Exec (σ : World) (env : Env) (stmt : Stmt) : Option String × World :=
  let σ1 := { σ with calls := σ.calls ++ [stmt] }
  match env.dbErr with
  | some e => (some e, σ1)
  | none =>
    match constraintErr env σ.tasks stmt with
    | some e => (some e, σ1)
    | none => (none, { σ1 with tasks := applyStmt env σ.tasks stmt })

/-- Go `*sql.Rows` as the loop of `getTasks` sees it: the rows `Next()` delivers before it
    returns false, and the value of `rows.Err()` after that. -/
structure Rows where
  pending : List Row
  err : Option String
deriving DecidableEq, Repr

/-- Go `db.Query(query)` for the `SELECT` of `getTasks`: rows in the table's order. -/
def World.Query (σ : World) (env : Env) : Except String Rows × World :=
  let σ1 := { σ with calls := σ.calls ++ [Stmt.selectTasks] }
  match env.dbErr with
  | some e => (.error e, σ1)
  | none =>
    match env.rowsErr with
    | some (n, e) => (.ok { pending := σ.tasks.take n, err := some e }, σ1)
    | none => (.ok { pending := σ.tasks, err := none }, σ1)

/-- Scanning a nullable text column into a `sql.NullString`. -/
def scanNullString : Option String → NullString
  | none => { String := "", Valid := false }
  | some s => { String := s, Valid := true }

/-- Message of `rows.Scan` on a `NULL` in the column `title`, whose target is a `string`. -/
def errScanNullTitle : String :=
  "sql: Scan error on column index 1, name \"title\": converting NULL to string is unsupported"

/-- Go `rows.Scan(&t.Id, &t.Title, &t.CreatedAt, &t.UpdatedAt)` (main.go:40-45). -/
def Scan (row : Row) : Except String Task :=
  match row.title with
  | none => .error errScanNullTitle
  | some title =>
    .ok { Id := row.id, Title := title, CreatedAt := scanNullString row.created_at,
          UpdatedAt := scanNullString row.updated_at }

/-- The loop `for rows.Next() { ... tasks = append(tasks, t) }` (main.go:37-51): the tasks
    scanned, or the error of the first scan that fails. -/
def scanRows : List Row → List Task → Except String (List Task)
  | [], tasks => .ok tasks
  | row :: rest, tasks =>
    match Scan row with
    | .error err => .error err
    | .ok t => scanRows rest (tasks ++ [t])

/-! ## The handlers -/

/-- Translation of `getTasks` (main.go:29-76). -/
def getTasks (env : Env) (σ : World) (w : ResponseWriter) (_r : Request) :
    ResponseWriter × World :=
  match σ.Query env with
  | (.error err, σ1) =>
    (http.Error w ("failed to get tasks: " ++ err) StatusInternalServerError, σ1)
  | (.ok rows, σ1) =>
    match scanRows rows.pending [] with
    | .error err =>
      (http.Error w ("failed to scan value: " ++ err) StatusInternalServerError, σ1)
    | .ok tasks =>
      match rows.err with
      | some err =>
        (http.Error w ("failed while iterating: " ++ err) StatusInternalServerError, σ1)
      | none =>
        match env.ParseFiles with
        | .error err =>
          (http.Error w ("failed to parse template: " ++ err) StatusInternalServerError, σ1)
        | .ok t =>
          let σ2 := { σ1 with rendered := σ1.rendered ++ [tasks] }
          match t.Execute tasks with
          | (_, some err) =>
            (http.Error w ("failed to execute template: " ++ err) StatusInternalServerError,
              σ2)
          | (buf, none) =>
            (({ w with header := Header.Set w.header "Content-Type" "text/html; charset=utf-8" }
                : ResponseWriter).Write buf, σ2)

/-- The two closing lines of the three writing handlers:
    `w.Header().Add("HX-Trigger", "get-tasks")` and `w.WriteHeader(http.StatusOK)`. -/
def triggerOK (w : ResponseWriter) : ResponseWriter :=
  ({ w with header := Header.Add w.header "HX-Trigger" "get-tasks" }
    : ResponseWriter).WriteHeader StatusOK

/-- Translation of `createTask` (main.go:78-100). -/
def createTask (env : Env) (σ : World) (w : ResponseWriter) (r : Request) :
    ResponseWriter × World :=
  match r.ParseForm with
  | some err => (http.Error w ("failed to parse form: " ++ err) StatusBadRequest, σ)
  | none =>
    let title := r.Form.Get "title"
    match checkEmptyString [title] with
    | some err => (http.Error w ("failed to validate form: " ++ err) StatusBadRequest, σ)
    | none =>
      match σ.Exec env (.insertTask title env.now) with
      | (some err, σ1) =>
        (http.Error w ("failed to create task: " ++ err) StatusInternalServerError, σ1)
      | (none, σ1) => (triggerOK w, σ1)

/-- Translation of `editTask` (main.go:102-136). -/
def editTask (env : Env) (σ : World) (w : ResponseWriter) (r : Request) :
    ResponseWriter × World :=
  let idParam := r.URLQuery.Get "id"
  if len idParam == 0 then
    (http.Error w ("failed to get id: " ++ errEmptyString) StatusBadRequest, σ)
  else
    match ParseUint idParam with
    | .error err =>
      (http.Error w ("failed to parse id: " ++ err.Error env.quote) StatusBadRequest, σ)
    | .ok id =>
      match r.ParseForm with
      | some err => (http.Error w ("failed to parse form: " ++ err) StatusBadRequest, σ)
      | none =>
        let title := r.Form.Get "title"
        match checkEmptyString [title] with
        | some err =>
          (http.Error w ("failed to validate form: " ++ err) StatusBadRequest, σ)
        | none =>
          match σ.Exec env (.updateTask title env.now id) with
          | (some err, σ1) =>
            (http.Error w ("failed to edit task: " ++ err) StatusInternalServerError, σ1)
          | (none, σ1) => (triggerOK w, σ1)

/-- Translation of `deleteTask` (main.go:138-158). -/
def deleteTask (env : Env) (σ : World) (w : ResponseWriter) (r : Request) :
    ResponseWriter × World :=
  let idParam := r.URLQuery.Get "id"
  if len idParam == 0 then
    (http.Error w ("failed to get id: " ++ errEmptyString) StatusBadRequest, σ)
  else
    match ParseUint idParam with
    | .error err =>
      (http.Error w ("failed to parse id: " ++ err.Error env.quote) StatusBadRequest, σ)
    | .ok id =>
      match σ.Exec env (.deleteTask id) with
      | (some err, σ1) =>
        (http.Error w ("failed to delete task: " ++ err) StatusInternalServerError, σ1)
      | (none, σ1) => (triggerOK w, σ1)

/-! ## Startup -/

/-- The process environment, `os.Environ()`, as pairs of a name and its value. -/
abbrev Environ := List (String × String)

/-- Go `os.Getenv`: the value of the variable, `""` when it is not set. -/
def Getenv (environ : Environ) (key : String) : String :=
  (environ.lookup key).getD ""

/-- What `main` obtains from outside the program text. -/
structure Sys where
  /-- The environment the process starts with. -/
  environ : Environ
  /-- Outcome of reading the file `.env`: the error, or the variables it defines. -/
  dotenv : Except String Environ
  /-- Error returned by `sql.Open("postgres", ..)`. -/
  sqlOpen : Option String
  /-- Error with which `http.ListenAndServe` returns; `none` while it goes on serving. -/
  listen : Option String
deriving DecidableEq, Repr

/-- Package `godotenv`, `Load()`: each variable of the file that the environment does not
    hold already is set; a variable that exists is not overridden. -/
def godotenv.Load (sys : Sys) : Except String Environ :=
  match sys.dotenv with
  | .error err => .error err
  | .ok file =>
    .ok (sys.environ ++ file.filter (fun kv => !(sys.environ.map Prod.fst).contains kv.1))

/-- The first block of `main` (main.go:170-176): with `ENV=dev` the file `.env` is loaded;
    the result is the error of `godotenv.Load` or the environment the rest of `main` reads. -/
def startupEnviron (sys : Sys) : Except String Environ :=
  if Getenv sys.environ "ENV" == "dev" then godotenv.Load sys else .ok sys.environ

/-- What the process `main` does that can be seen from outside: the bytes written to the
    two standard streams, the exit status (`none` while the process runs), the data source
    passed to `sql.Open` and the address passed to `http.ListenAndServe`, if reached. -/
structure Proc where
  stdout : String := ""
  stderr : String := ""
  exit : Option Nat := none
  opened : Option String := none
  listening : Option String := none
deriving DecidableEq, Repr

/-- The two lines `fmt.Fprintln(os.Stdout, err.Error())` and `os.Exit(1)` that follow each
    failed step of `main`. -/
def exitWith (p : Proc) (err : String) : Proc :=
  { p with stdout := p.stdout ++ err ++ "\n", exit := some 1 }

/-- Translation of `main` (main.go:169-225); the routes are those of the handlers above. -/
def main (sys : Sys) : Proc :=
  let p : Proc := {}
  match startupEnviron sys with
  | .error err => exitWith p err
  | .ok environ =>
    match checkEmptyString [Getenv environ "PORT", Getenv environ "DATABASE_URL"] with
    | some err => exitWith p err
    | none =>
      let p := { p with opened := some (Getenv environ "DATABASE_URL") }
      match sys.sqlOpen with
      | some err => exitWith p err
      | none =>
        let p := { p with listening := some (":" ++ Getenv environ "PORT") }
        match sys.listen with
        | some err => exitWith p err
        | none => p

/-! ## The invariant on titles -/

/-- Predicate "every row of the table has a non-empty title": each row has a title (it is
    not `NULL`) and the title has at least one byte. -/
def titlesNonEmpty (tasks : List Row) : Prop :=
  ∀ row ∈ tasks, ∃ s, row.title = some s ∧ len s ≠ 0

/-! ## Concrete inputs -/

/-- A template that lists the titles. -/
def exampleTemplate : Template :=
  ⟨fun tasks => ("<ul>" ++ String.join (tasks.map (fun t => "<li>" ++ t.Title ++ "</li>"))
      ++ "</ul>", none)⟩

/-- A request environment in which the database and the template answer without error. -/
def exampleEnv : Env :=
  { now := "2024-05-01T10:00:00Z", nextval := 2, dbErr := none, rowsErr := none,
    quote := fun s => "\"" ++ s ++ "\"", ParseFiles := .ok exampleTemplate }

/-- A request environment in which the database refuses the statement. -/
def downEnv : Env :=
  { exampleEnv with dbErr := some "dial tcp 127.0.0.1:5432: connect: connection refused" }

/-- A table with one task. -/
def exampleWorld : World :=
  { tasks := [{ id := 1, title := some "Buy milk", created_at := some "2024-04-30T09:00:00Z",
                updated_at := none }] }

/-- A table whose only row has no title. -/
def nullTitleWorld : World :=
  { tasks := [{ id := 1, title := none, created_at := none, updated_at := none }] }

/-- A request with the query parameter `id` and the form field `title`. -/
def exampleRequest (id title : String) : Request :=
  { URLQuery := [("id", [id])], ParseForm := none, Form := [("title", [title])] }

/-! ## Properties of the library embedding and of the handlers -/

theorem len_eq_zero_iff (s : String) : len s = 0 ↔ s = "" := by
  cases s with
  | mk l =>
    cases l with
    | nil => exact ⟨fun _ => rfl, fun _ => rfl⟩
    | cons c cs =>
      have hc := Char.utf8Size_pos c
      constructor
      · intro h
        simp only [len, String.utf8ByteSize, String.utf8ByteSize.go] at h
        omega
      · intro h
        exact absurd (congrArg String.data h) (by simp)

theorem Values.Get_of_lookup_none (v : Values) (key : String) (h : v.lookup key = none) :
    Values.Get v key = "" := by
  simp [Values.Get, h]

theorem http_Error_status (w : ResponseWriter) (msg : String) (code : Nat)
    (h : w.status = none) : (http.Error w msg code).status = some code := by
  simp [http.Error, ResponseWriter.Write, ResponseWriter.WriteHeader, h]

theorem http_Error_body (w : ResponseWriter) (msg : String) (code : Nat) :
    (http.Error w msg code).body = w.body ++ (msg ++ "\n") := by
  unfold http.Error ResponseWriter.Write ResponseWriter.WriteHeader
  cases h : w.status <;> simp [h]

theorem http_Error_fresh_status (msg : String) (code : Nat) :
    (http.Error {} msg code).status = some code :=
  http_Error_status {} msg code rfl

theorem http_Error_fresh_body (msg : String) (code : Nat) :
    (http.Error {} msg code).body = msg ++ "\n" := by
  rw [http_Error_body]; simp

theorem http_Error_fresh_no_trigger (msg : String) (code : Nat) :
    Header.Get (http.Error {} msg code).sentHeader "HX-Trigger" = "" := by
  have h : (http.Error {} msg code).sentHeader =
      Header.Set (Header.Set (Header.Del [] "Content-Length") "Content-Type"
        "text/plain; charset=utf-8") "X-Content-Type-Options" "nosniff" := by
    simp [http.Error, ResponseWriter.Write, ResponseWriter.WriteHeader]
  rw [h]
  decide

theorem triggerOK_fresh :
    (triggerOK {}).status = some 200 ∧
    Header.Get (triggerOK {}).sentHeader "HX-Trigger" = "get-tasks" ∧
    (triggerOK {}).body = "" := by decide

theorem isDigit_iff (c : Char) : c.isDigit = true ↔ 48 ≤ c.toNat ∧ c.toNat ≤ 57 := by
  simp only [Char.isDigit, Bool.and_eq_true, decide_eq_true_eq, Char.toNat, ge_iff_le]
  rw [UInt32.le_def, UInt32.le_def]
  simp [Fin.le_def]
  rfl

theorem parseUintStep_nondigit (c : Char) (n : Nat) (h : c.isDigit = false) :
    ∃ e, parseUintStep c n = .error e := by
  have h1 : ¬ (48 ≤ c.toNat ∧ c.toNat ≤ 57) := by
    rw [← isDigit_iff]; simp [h]
  unfold parseUintStep
  simp only [h1, if_false]
  split
  · exact ⟨_, rfl⟩
  · rename_i d hd
    split at hd
    · simp at hd
      have : d ≥ 10 := by omega
      simp [this]
    · simp at hd

theorem parseUintLoop_nondigit (cs : List Char) (n : Nat)
    (h : ∃ c ∈ cs, c.isDigit = false) : ∃ e, parseUintLoop cs n = .error e := by
  induction cs generalizing n with
  | nil => simp at h
  | cons c cs ih =>
    unfold parseUintLoop
    cases hstep : parseUintStep c n with
    | error e => exact ⟨e, rfl⟩
    | ok n1 =>
      simp only
      apply ih
      obtain ⟨x, hx, hxd⟩ := h
      rcases List.mem_cons.mp hx with rfl | hx
      · obtain ⟨e, he⟩ := parseUintStep_nondigit x n hxd
        rw [he] at hstep
        cases hstep
      · exact ⟨x, hx, hxd⟩

theorem ParseUint_nondigit (s : String) (h : ∃ c ∈ s.toList, c.isDigit = false) :
    ∃ e, ParseUint s = .error e := by
  unfold ParseUint
  split
  · exact ⟨_, rfl⟩
  · obtain ⟨e, he⟩ := parseUintLoop_nondigit s.toList 0 h
    rw [he]
    exact ⟨_, rfl⟩

theorem le_decimalValue (cs : List Char) (n : Nat) : n ≤ decimalValue cs n := by
  induction cs generalizing n with
  | nil => exact Nat.le_refl n
  | cons c cs ih =>
    have h := ih (n * 10 + (c.toNat - 48))
    simp only [decimalValue, List.foldl_cons] at h ⊢
    omega

theorem parseUintStep_ok_iff (c : Char) (n m : Nat) :
    parseUintStep c n = .ok m ↔
      c.isDigit = true ∧ m = n * 10 + (c.toNat - 48) ∧ m ≤ maxUint64 := by
  rw [isDigit_iff]
  unfold parseUintStep
  simp only [maxUint64, cutoff10]
  norm_num
  by_cases hd : 48 ≤ c.toNat ∧ c.toNat ≤ 57
  · simp only [hd, and_self, if_true, true_and]
    have h10 : ¬ 10 ≤ c.toNat - 48 := by omega
    simp only [h10, if_false]
    split
    · constructor
      · intro h; cases h
      · rintro ⟨rfl, h⟩; omega
    · split
      · constructor
        · intro h; cases h
        · rintro ⟨rfl, h⟩; omega
      · constructor
        · intro h
          simp only [Except.ok.injEq] at h
          omega
        · rintro ⟨rfl, h⟩
          simp only [Except.ok.injEq]
          omega
  · simp only [hd, if_false, false_and]
    constructor
    · intro h
      split at h
      · cases h
      · rename_i d hdig
        split at hdig
        · simp only [Option.some.injEq] at hdig
          have : 10 ≤ d := by omega
          simp [this] at h
        · cases hdig
    · intro h; exact h.elim


theorem parseUintLoop_ok_iff (cs : List Char) (n m : Nat) (hn : n ≤ maxUint64) :
    parseUintLoop cs n = .ok m ↔
      (∀ c ∈ cs, c.isDigit = true) ∧ m = decimalValue cs n ∧ m ≤ maxUint64 := by
  induction cs generalizing n with
  | nil =>
    simp only [parseUintLoop, decimalValue, List.foldl_nil, Except.ok.injEq]
    constructor
    · rintro rfl
      exact ⟨by simp, rfl, hn⟩
    · rintro ⟨_, rfl, _⟩
      rfl
  | cons c cs ih =>
    have hval : decimalValue (c :: cs) n = decimalValue cs (n * 10 + (c.toNat - 48)) := rfl
    unfold parseUintLoop
    cases hstep : parseUintStep c n with
    | error e =>
      simp only
      constructor
      · intro h; cases h
      · rintro ⟨hd, rfl, hm⟩
        have hle := le_decimalValue cs (n * 10 + (c.toNat - 48))
        rw [hval] at hm
        have hok := (parseUintStep_ok_iff c n (n * 10 + (c.toNat - 48))).mpr
          ⟨hd c (by simp), rfl, Nat.le_trans hle hm⟩
        rw [hstep] at hok
        cases hok
    | ok n1 =>
      simp only
      obtain ⟨hc, rfl, hn1⟩ := (parseUintStep_ok_iff c n n1).mp hstep
      rw [ih _ hn1, hval]
      constructor
      · rintro ⟨hd, hm, hmax⟩
        refine ⟨?_, hm, hmax⟩
        intro x hx
        rcases List.mem_cons.mp hx with rfl | hx
        · exact hc
        · exact hd x hx
      · rintro ⟨hd, hm, hmax⟩
        exact ⟨fun x hx => hd x (List.mem_cons_of_mem _ hx), hm, hmax⟩

/-- The inputs that `ParseUint` accepts are the non-empty runs of decimal digits whose
    value fits 64 bits, and the result is that value. -/
theorem ParseUint_ok_iff (s : String) (m : Nat) :
    ParseUint s = .ok m ↔
      s ≠ "" ∧ (∀ c ∈ s.toList, c.isDigit = true) ∧ m = decimalValue s.toList 0 ∧
        m ≤ maxUint64 := by
  unfold ParseUint
  by_cases hs : s = ""
  · simp [hs]
  · simp only [hs, if_false, ne_eq, not_false_eq_true, true_and]
    rw [← parseUintLoop_ok_iff s.toList 0 m (Nat.zero_le _)]
    cases parseUintLoop s.toList 0 <;> simp

theorem checkEmptyString_some_iff (str : List String) :
    checkEmptyString str = some errEmptyString ↔ ∃ s ∈ str, len s = 0 := by
  induction str with
  | nil => simp [checkEmptyString]
  | cons s rest ih =>
    by_cases h : len s = 0 <;> simp [checkEmptyString, h, ih]

theorem checkEmptyString_none_iff (str : List String) :
    checkEmptyString str = none ↔ ∀ s ∈ str, len s ≠ 0 := by
  induction str with
  | nil => simp [checkEmptyString]
  | cons s rest ih =>
    by_cases h : len s = 0 <;> simp [checkEmptyString, h, ih]

/-! ## C10: `checkEmptyString` -/

/-- C10: for every list of strings `checkEmptyString` returns `errEmptyString` exactly when
    some string of the list has length zero and `nil` exactly when none has; it returns
    `nil` on the empty list and on lists of non-empty strings made of whitespace only, and
    its result is the same on every reordering of the list. -/
theorem checkEmptyString_spec (str : List String) :
    (checkEmptyString str = some errEmptyString ↔ ∃ s ∈ str, len s = 0) ∧
    (checkEmptyString str = none ↔ ¬ ∃ s ∈ str, len s = 0) ∧
    checkEmptyString [] = none ∧
    ((∀ s ∈ str, s ≠ "" ∧ ∀ c ∈ s.toList, c.isWhitespace = true) →
      checkEmptyString str = none) ∧
    (∀ str2 : List String, str2.Perm str → checkEmptyString str2 = checkEmptyString str) := by
  refine ⟨checkEmptyString_some_iff str, ?_, rfl, ?_, ?_⟩
  · rw [checkEmptyString_none_iff]; simp
  · intro h
    rw [checkEmptyString_none_iff]
    intro s hs hlen
    exact (h s hs).1 ((len_eq_zero_iff s).mp hlen)
  · intro str2 hperm
    by_cases h : ∃ s ∈ str, len s = 0
    · have h2 : ∃ s ∈ str2, len s = 0 := by
        obtain ⟨s, hs, hl⟩ := h
        exact ⟨s, hperm.mem_iff.mpr hs, hl⟩
      rw [(checkEmptyString_some_iff str).mpr h, (checkEmptyString_some_iff str2).mpr h2]
    · have h2 : ∀ s ∈ str2, len s ≠ 0 := by
        intro s hs hl
        exact h ⟨s, hperm.mem_iff.mp hs, hl⟩
      have h1 : ∀ s ∈ str, len s ≠ 0 := by
        intro s hs hl
        exact h ⟨s, hs, hl⟩
      rw [(checkEmptyString_none_iff str).mpr h1, (checkEmptyString_none_iff str2).mpr h2]

/-- Witness of C10 on the arguments `"a", "", " "` and their reordering `" ", "a", ""`. -/
theorem checkEmptyString_spec_witness :
    checkEmptyString ["a", "", " "] = some errEmptyString ∧
    checkEmptyString [" ", "a", ""] = checkEmptyString ["a", "", " "] :=
  ⟨(checkEmptyString_spec ["a", "", " "]).1.mpr ⟨"", by decide, by decide⟩,
   (checkEmptyString_spec ["a", "", " "]).2.2.2.2 [" ", "a", ""] (by decide)⟩

/-! ## C1: creating with an empty title -/

/-- C1, as stated, fails: the title `" "` is made of whitespace only, and `createTask`
    answers 200 and inserts a row with that title. -/
theorem createTask_whitespace_title_inserted :
    (" ".toList.all Char.isWhitespace = true) ∧
    (createTask exampleEnv exampleWorld {} (exampleRequest "" " ")).1.status = some 200 ∧
    (createTask exampleEnv exampleWorld {} (exampleRequest "" " ")).2.calls =
      [Stmt.insertTask " " "2024-05-01T10:00:00Z"] ∧
    (createTask exampleEnv exampleWorld {} (exampleRequest "" " ")).2.tasks =
      exampleWorld.tasks ++
        [{ id := 2, title := some " ", created_at := some "2024-05-01T10:00:00Z",
           updated_at := none }] := by
  decide

/-- C1, amended: for every request to `createTask` whose form field `title` is missing or
    empty, the response status is 400, no statement is handed to the database and the
    table is unchanged (the whole state behind `db` is as before). -/
theorem createTask_empty_title_rejected (env : Env) (σ : World) (r : Request)
    (h : r.Form.lookup "title" = none ∨ r.Form.Get "title" = "") :
    (createTask env σ {} r).1.status = some 400 ∧
    (createTask env σ {} r).2.calls = σ.calls ∧
    (createTask env σ {} r).2.tasks = σ.tasks ∧
    (createTask env σ {} r).2 = σ := by
  have ht : r.Form.Get "title" = "" := by
    rcases h with h | h
    · exact Values.Get_of_lookup_none _ _ h
    · exact h
  unfold createTask
  cases hpf : r.ParseForm with
  | some err => simp [http_Error_fresh_status, StatusBadRequest]
  | none =>
    have hc : checkEmptyString [r.Form.Get "title"] = some errEmptyString := by
      rw [ht]; rfl
    simp [hc, http_Error_fresh_status, StatusBadRequest]

/-- Witness of the amended C1: a request without a `title` field on the example table. -/
theorem createTask_empty_title_rejected_witness :
    (createTask exampleEnv exampleWorld {}
        { URLQuery := [], ParseForm := none, Form := [] }).1.status = some 400 ∧
    (createTask exampleEnv exampleWorld {}
        { URLQuery := [], ParseForm := none, Form := [] }).2 = exampleWorld :=
  ⟨(createTask_empty_title_rejected exampleEnv exampleWorld
      { URLQuery := [], ParseForm := none, Form := [] } (Or.inl rfl)).1,
   (createTask_empty_title_rejected exampleEnv exampleWorld
      { URLQuery := [], ParseForm := none, Form := [] } (Or.inl rfl)).2.2.2⟩

/-! ## C4: edit and delete with a missing or non-numeric id -/

/-- C4: for `editTask` and `deleteTask` alike, when the query parameter `id` is absent,
    empty or contains a character that is not a decimal digit, the response status is 400,
    no statement is handed to the database and no row changes (the state behind `db` is as
    before), whatever the form of the request holds; the body is the "empty string" error
    for an absent or empty id and the error of `ParseUint` otherwise. -/
theorem edit_delete_bad_id_rejected (env : Env) (σ : World) (r : Request)
    (h : r.URLQuery.lookup "id" = none ∨ r.URLQuery.Get "id" = "" ∨
         ∃ c ∈ (r.URLQuery.Get "id").toList, c.isDigit = false) :
    ((editTask env σ {} r).1.status = some 400 ∧ (editTask env σ {} r).2 = σ) ∧
    ((deleteTask env σ {} r).1.status = some 400 ∧ (deleteTask env σ {} r).2 = σ) ∧
    (r.URLQuery.Get "id" = "" →
      (editTask env σ {} r).1.body = "failed to get id: empty string\n" ∧
      (deleteTask env σ {} r).1.body = "failed to get id: empty string\n") ∧
    (r.URLQuery.Get "id" ≠ "" →
      ∃ e, ParseUint (r.URLQuery.Get "id") = .error e ∧
        (editTask env σ {} r).1.body = "failed to parse id: " ++ e.Error env.quote ++ "\n" ∧
        (deleteTask env σ {} r).1.body =
          "failed to parse id: " ++ e.Error env.quote ++ "\n") := by
  by_cases hid : r.URLQuery.Get "id" = ""
  · have hlen : len "" = 0 := by decide
    simp [editTask, deleteTask, hlen, hid, http_Error_fresh_status, http_Error_fresh_body,
      StatusBadRequest, errEmptyString]
  · have hlen : ¬ len (r.URLQuery.Get "id") = 0 := fun hl => hid ((len_eq_zero_iff _).mp hl)
    have hdig : ∃ c ∈ (r.URLQuery.Get "id").toList, c.isDigit = false := by
      rcases h with h | h | h
      · exact absurd (Values.Get_of_lookup_none _ _ h) hid
      · exact absurd h hid
      · exact h
    obtain ⟨e, he⟩ := ParseUint_nondigit _ hdig
    simp [editTask, deleteTask, hlen, hid, he, http_Error_fresh_status,
      http_Error_fresh_body, StatusBadRequest]

/-- Witness of C4: the id `1x` on the example table, with a valid title in the form. -/
theorem edit_delete_bad_id_rejected_witness :
    (editTask exampleEnv exampleWorld {} (exampleRequest "1x" "Buy bread")).1.status = some 400 ∧
    (editTask exampleEnv exampleWorld {} (exampleRequest "1x" "Buy bread")).2 = exampleWorld ∧
    (deleteTask exampleEnv exampleWorld {} (exampleRequest "1x" "Buy bread")).2 =
      exampleWorld :=
  ⟨(edit_delete_bad_id_rejected exampleEnv exampleWorld (exampleRequest "1x" "Buy bread")
      (Or.inr (Or.inr ⟨'x', by decide, by decide⟩))).1.1,
   (edit_delete_bad_id_rejected exampleEnv exampleWorld (exampleRequest "1x" "Buy bread")
      (Or.inr (Or.inr ⟨'x', by decide, by decide⟩))).1.2,
   (edit_delete_bad_id_rejected exampleEnv exampleWorld (exampleRequest "1x" "Buy bread")
      (Or.inr (Or.inr ⟨'x', by decide, by decide⟩))).2.1.2⟩


theorem Exec_fst_none_iff (σ : World) (env : Env) (stmt : Stmt) :
    (σ.Exec env stmt).1 = none ↔ env.dbErr = none ∧ constraintErr env σ.tasks stmt = none := by
  unfold World.Exec
  cases h1 : env.dbErr <;> cases h2 : constraintErr env σ.tasks stmt <;> simp

theorem Exec_of_ok (σ : World) (env : Env) (stmt : Stmt) (h : (σ.Exec env stmt).1 = none) :
    σ.Exec env stmt =
      (none, { σ with calls := σ.calls ++ [stmt], tasks := applyStmt env σ.tasks stmt }) := by
  obtain ⟨h1, h2⟩ := (Exec_fst_none_iff σ env stmt).mp h
  simp [World.Exec, h1, h2]

theorem Exec_of_err (σ : World) (env : Env) (stmt : Stmt) (e : String)
    (h : (σ.Exec env stmt).1 = some e) :
    σ.Exec env stmt = (some e, { σ with calls := σ.calls ++ [stmt] }) := by
  unfold World.Exec at h ⊢
  cases h1 : env.dbErr <;> cases h2 : constraintErr env σ.tasks stmt <;> simp_all

theorem checkEmptyString_single (t : String) (h : len t ≠ 0) : checkEmptyString [t] = none := by
  simp [checkEmptyString, h]

theorem createTask_of_valid (env : Env) (σ : World) (w : ResponseWriter) (r : Request)
    (hform : r.ParseForm = none) (hne : len (r.Form.Get "title") ≠ 0)
    (hok : (σ.Exec env (.insertTask (r.Form.Get "title") env.now)).1 = none) :
    createTask env σ w r =
      (triggerOK w, { σ with calls := σ.calls ++ [.insertTask (r.Form.Get "title") env.now],
                             tasks := applyStmt env σ.tasks (.insertTask (r.Form.Get "title") env.now) }) := by
  simp [createTask, hform, checkEmptyString_single _ hne, Exec_of_ok _ _ _ hok]

theorem editTask_of_valid (env : Env) (σ : World) (w : ResponseWriter) (r : Request) (i : Nat)
    (hid : ParseUint (r.URLQuery.Get "id") = .ok i)
    (hform : r.ParseForm = none) (hne : len (r.Form.Get "title") ≠ 0)
    (hok : (σ.Exec env (.updateTask (r.Form.Get "title") env.now i)).1 = none) :
    editTask env σ w r =
      (triggerOK w, { σ with calls := σ.calls ++ [.updateTask (r.Form.Get "title") env.now i],
                             tasks := applyStmt env σ.tasks (.updateTask (r.Form.Get "title") env.now i) }) := by
  have hlen : ¬ len (r.URLQuery.Get "id") = 0 := by
    intro h
    rw [(len_eq_zero_iff _).mp h] at hid
    simp [ParseUint] at hid
  simp [editTask, hlen, hid, hform, checkEmptyString_single _ hne, Exec_of_ok _ _ _ hok]

theorem deleteTask_of_valid (env : Env) (σ : World) (w : ResponseWriter) (r : Request) (i : Nat)
    (hid : ParseUint (r.URLQuery.Get "id") = .ok i)
    (hok : (σ.Exec env (.deleteTask i)).1 = none) :
    deleteTask env σ w r =
      (triggerOK w, { σ with calls := σ.calls ++ [.deleteTask i],
                             tasks := applyStmt env σ.tasks (.deleteTask i) }) := by
  have hlen : ¬ len (r.URLQuery.Get "id") = 0 := by
    intro h
    rw [(len_eq_zero_iff _).mp h] at hid
    simp [ParseUint] at hid
  simp [deleteTask, hlen, hid, Exec_of_ok _ _ _ hok]


theorem Scan_ok (row : Row) (x : Task) (h : Scan row = .ok x) :
    x.Id = row.id ∧ row.title = some x.Title ∧ x.CreatedAt = scanNullString row.created_at ∧
    x.UpdatedAt = scanNullString row.updated_at := by
  unfold Scan at h
  cases ht : row.title with
  | none => simp [ht] at h
  | some title =>
    simp only [ht, Except.ok.injEq] at h
    subst h
    simp

theorem scanRows_mem_of_row (rows : List Row) (acc tasks : List Task)
    (h : scanRows rows acc = .ok tasks) :
    (∀ a ∈ acc, a ∈ tasks) ∧ ∀ row ∈ rows, ∃ x ∈ tasks, Scan row = .ok x := by
  induction rows generalizing acc with
  | nil =>
    simp only [scanRows, Except.ok.injEq] at h
    subst h
    simp
  | cons row rest ih =>
    unfold scanRows at h
    cases hs : Scan row with
    | error e => simp [hs] at h
    | ok t =>
      simp only [hs] at h
      obtain ⟨hacc, hrest⟩ := ih (acc ++ [t]) h
      refine ⟨fun a ha => hacc a (List.mem_append_left _ ha), ?_⟩
      intro row2 hrow2
      rcases List.mem_cons.mp hrow2 with rfl | hmem
      · exact ⟨t, hacc t (by simp), hs⟩
      · exact hrest row2 hmem

theorem scanRows_row_of_mem (rows : List Row) (acc tasks : List Task)
    (h : scanRows rows acc = .ok tasks) :
    ∀ x ∈ tasks, x ∈ acc ∨ ∃ row ∈ rows, Scan row = .ok x := by
  induction rows generalizing acc with
  | nil =>
    simp only [scanRows, Except.ok.injEq] at h
    subst h
    intro x hx
    exact Or.inl hx
  | cons row rest ih =>
    unfold scanRows at h
    cases hs : Scan row with
    | error e => simp [hs] at h
    | ok t =>
      simp only [hs] at h
      intro x hx
      rcases ih (acc ++ [t]) h x hx with hacc | ⟨row2, hrow2, hscan⟩
      · rcases List.mem_append.mp hacc with ha | ht
        · exact Or.inl ha
        · simp only [List.mem_singleton] at ht
          subst ht
          exact Or.inr ⟨row, by simp, hs⟩
      · exact Or.inr ⟨row2, List.mem_cons_of_mem _ hrow2, hscan⟩

theorem scanRows_total (rows : List Row) (acc : List Task)
    (h : ∀ row ∈ rows, row.title ≠ none) : ∃ tasks, scanRows rows acc = .ok tasks := by
  induction rows generalizing acc with
  | nil => exact ⟨acc, rfl⟩
  | cons row rest ih =>
    unfold scanRows
    cases ht : row.title with
    | none => exact absurd ht (h row (by simp))
    | some title =>
      simp only [Scan, ht]
      exact ih _ (fun row2 h2 => h row2 (List.mem_cons_of_mem _ h2))

/-- The task list handed to the renderer by `getTasks`, when it hands one over, is the scan
    of the whole table. -/
theorem getTasks_rendered (env : Env) (σ : World) (w : ResponseWriter) (r : Request)
    (tasks : List Task)
    (h : (getTasks env σ w r).2.rendered = σ.rendered ++ [tasks]) :
    scanRows σ.tasks [] = .ok tasks := by
  unfold getTasks World.Query at h
  cases h1 : env.dbErr with
  | some e => simp [h1] at h
  | none =>
    cases h2 : env.rowsErr with
    | some ne =>
      simp only [h1, h2] at h
      cases h3 : scanRows (List.take ne.1 σ.tasks) [] with
      | error e => simp [h3] at h
      | ok ts => simp [h3] at h
    | none =>
      simp only [h1, h2] at h
      cases h3 : scanRows σ.tasks [] with
      | error e => simp [h3] at h
      | ok ts =>
        simp only [h3] at h
        cases h4 : env.ParseFiles with
        | error e => simp [h4] at h
        | ok t =>
          simp only [h4] at h
          cases h5 : t.Execute ts with
          | mk buf err =>
            cases err <;> simp [h5] at h <;> simp [h]

/-- When the database answers, every row scans and the template parses, `getTasks` hands
    the scan of the whole table to the renderer. -/
theorem getTasks_renders (env : Env) (σ : World) (w : ResponseWriter) (r : Request)
    (t : Template) (tasks : List Task)
    (h1 : env.dbErr = none) (h2 : env.rowsErr = none) (h3 : scanRows σ.tasks [] = .ok tasks)
    (h4 : env.ParseFiles = .ok t) :
    (getTasks env σ w r).2.rendered = σ.rendered ++ [tasks] := by
  unfold getTasks World.Query
  simp only [h1, h2, h3, h4]
  cases h5 : t.Execute tasks with
  | mk buf err => cases err <;> simp


theorem getTasks_tasks (env : Env) (σ : World) (w : ResponseWriter) (r : Request) :
    (getTasks env σ w r).2.tasks = σ.tasks := by
  unfold getTasks World.Query
  cases h1 : env.dbErr with
  | some e => rfl
  | none =>
    cases h2 : env.rowsErr with
    | some ne =>
      simp only
      cases h3 : scanRows (List.take ne.1 σ.tasks) [] <;> rfl
    | none =>
      simp only
      cases h3 : scanRows σ.tasks [] with
      | error e => rfl
      | ok ts =>
        simp only
        cases h4 : env.ParseFiles with
        | error e => rfl
        | ok t =>
          simp only
          cases h5 : t.Execute ts with
          | mk buf err => cases err <;> rfl

theorem Exec_tasks (σ : World) (env : Env) (stmt : Stmt) :
    (σ.Exec env stmt).2.tasks = σ.tasks ∨
    (σ.Exec env stmt).2.tasks = applyStmt env σ.tasks stmt := by
  unfold World.Exec
  cases h1 : env.dbErr <;> cases h2 : constraintErr env σ.tasks stmt <;> simp

theorem createTask_tasks (env : Env) (σ : World) (w : ResponseWriter) (r : Request) :
    (createTask env σ w r).2.tasks = σ.tasks ∨
    (len (r.Form.Get "title") ≠ 0 ∧
      (createTask env σ w r).2.tasks =
        applyStmt env σ.tasks (.insertTask (r.Form.Get "title") env.now)) := by
  unfold createTask
  cases h1 : r.ParseForm with
  | some e => exact Or.inl rfl
  | none =>
    simp only
    by_cases hl : len (r.Form.Get "title") = 0
    · have hc : checkEmptyString [r.Form.Get "title"] = some errEmptyString := by
        simp [checkEmptyString, hl]
      simp [hc]
    · rw [checkEmptyString_single _ hl]
      simp only
      rcases Exec_tasks σ env (.insertTask (r.Form.Get "title") env.now) with h | h
      · left
        cases he : σ.Exec env (.insertTask (r.Form.Get "title") env.now) with
        | mk err σ1 => rw [he] at h; cases err <;> exact h
      · right
        refine ⟨hl, ?_⟩
        cases he : σ.Exec env (.insertTask (r.Form.Get "title") env.now) with
        | mk err σ1 => rw [he] at h; cases err <;> exact h

theorem editTask_tasks (env : Env) (σ : World) (w : ResponseWriter) (r : Request) :
    (editTask env σ w r).2.tasks = σ.tasks ∨
    ∃ i, ParseUint (r.URLQuery.Get "id") = .ok i ∧ len (r.Form.Get "title") ≠ 0 ∧
      (editTask env σ w r).2.tasks =
        applyStmt env σ.tasks (.updateTask (r.Form.Get "title") env.now i) := by
  unfold editTask
  simp only
  split
  · exact Or.inl rfl
  · cases hp : ParseUint (r.URLQuery.Get "id") with
    | error e => exact Or.inl rfl
    | ok i =>
      simp only
      cases h1 : r.ParseForm with
      | some e => exact Or.inl rfl
      | none =>
        simp only
        by_cases hl : len (r.Form.Get "title") = 0
        · have hc : checkEmptyString [r.Form.Get "title"] = some errEmptyString := by
            simp [checkEmptyString, hl]
          simp [hc]
        · rw [checkEmptyString_single _ hl]
          simp only
          rcases Exec_tasks σ env (.updateTask (r.Form.Get "title") env.now i) with h | h
          · left
            cases he : σ.Exec env (.updateTask (r.Form.Get "title") env.now i) with
            | mk err σ1 => rw [he] at h; cases err <;> exact h
          · right
            refine ⟨i, rfl, hl, ?_⟩
            cases he : σ.Exec env (.updateTask (r.Form.Get "title") env.now i) with
            | mk err σ1 => rw [he] at h; cases err <;> exact h

theorem deleteTask_tasks (env : Env) (σ : World) (w : ResponseWriter) (r : Request) :
    (deleteTask env σ w r).2.tasks = σ.tasks ∨
    ∃ i, ParseUint (r.URLQuery.Get "id") = .ok i ∧
      (deleteTask env σ w r).2.tasks = applyStmt env σ.tasks (.deleteTask i) := by
  unfold deleteTask
  simp only
  split
  · exact Or.inl rfl
  · cases hp : ParseUint (r.URLQuery.Get "id") with
    | error e => exact Or.inl rfl
    | ok i =>
      simp only
      rcases Exec_tasks σ env (.deleteTask i) with h | h
      · left
        cases he : σ.Exec env (.deleteTask i) with
        | mk err σ1 => rw [he] at h; cases err <;> exact h
      · right
        refine ⟨i, rfl, ?_⟩
        cases he : σ.Exec env (.deleteTask i) with
        | mk err σ1 => rw [he] at h; cases err <;> exact h

theorem applyStmt_update_absent (env : Env) (tasks : List Row) (t u : String) (i : Nat)
    (h : ∀ row ∈ tasks, row.id ≠ i) : applyStmt env tasks (.updateTask t u i) = tasks := by
  simp only [applyStmt]
  conv => rhs; rw [← List.map_id tasks]
  apply List.map_congr_left
  intro row hrow
  simp [h row hrow]

theorem applyStmt_delete_absent (env : Env) (tasks : List Row) (i : Nat)
    (h : ∀ row ∈ tasks, row.id ≠ i) : applyStmt env tasks (.deleteTask i) = tasks := by
  simp only [applyStmt]
  apply List.filter_eq_self.mpr
  intro row hrow
  simp [h row hrow]


/-! ## C2: creating a task, then listing -/

/-- C2: for every create request whose form parses and holds a non-empty title `t`, when
    the insert succeeds `createTask` answers 200 with the header `HX-Trigger: get-tasks`
    and the table is the former table followed by one row with title `t`, a non-null
    `created_at` and a null `updated_at`; every task list a subsequent `getTasks` hands to
    the renderer contains a record with title `t` and a valid `CreatedAt`, and it does hand
    one over when the database answers, the rows scan and the template parses. -/
theorem createTask_then_getTasks (env : Env) (σ : World) (r : Request) (t : String)
    (hform : r.ParseForm = none) (ht : r.Form.Get "title" = t) (hne : len t ≠ 0)
    (hok : (σ.Exec env (.insertTask t env.now)).1 = none) :
    (createTask env σ {} r).1.status = some 200 ∧
    Header.Get (createTask env σ {} r).1.sentHeader "HX-Trigger" = "get-tasks" ∧
    (createTask env σ {} r).2.tasks =
      σ.tasks ++ [{ id := env.nextval, title := some t, created_at := some env.now,
                    updated_at := none }] ∧
    (∀ (env2 : Env) (r2 : Request) (tasks : List Task),
      (getTasks env2 (createTask env σ {} r).2 {} r2).2.rendered =
        (createTask env σ {} r).2.rendered ++ [tasks] →
      ∃ x ∈ tasks, x.Title = t ∧ x.CreatedAt.Valid = true) ∧
    (∀ (env2 : Env) (r2 : Request) (tpl : Template),
      env2.dbErr = none → env2.rowsErr = none → env2.ParseFiles = .ok tpl →
      (∀ row ∈ σ.tasks, row.title ≠ none) →
      ∃ tasks, (getTasks env2 (createTask env σ {} r).2 {} r2).2.rendered =
        (createTask env σ {} r).2.rendered ++ [tasks]) := by
  subst ht
  rw [createTask_of_valid env σ {} r hform hne hok]
  refine ⟨triggerOK_fresh.1, triggerOK_fresh.2.1, rfl, ?_, ?_⟩
  · intro env2 r2 tasks h
    have hscan := getTasks_rendered env2 _ _ r2 tasks h
    obtain ⟨x, hx, hsx⟩ := (scanRows_mem_of_row _ _ _ hscan).2
      { id := env.nextval, title := some (r.Form.Get "title"), created_at := some env.now,
        updated_at := none } (by simp [applyStmt])
    obtain ⟨_, h2, h3, _⟩ := Scan_ok _ _ hsx
    refine ⟨x, hx, ?_, ?_⟩
    · simp only [Option.some.injEq] at h2
      exact h2.symm
    · rw [h3]; rfl
  · intro env2 r2 tpl h1 h2 h3 hrows
    obtain ⟨tasks, htasks⟩ := scanRows_total
      (applyStmt env σ.tasks (.insertTask (r.Form.Get "title") env.now)) [] (by
        intro row hrow
        simp only [applyStmt, List.mem_append, List.mem_singleton] at hrow
        rcases hrow with hrow | hrow
        · exact hrows row hrow
        · subst hrow; simp)
    exact ⟨tasks, getTasks_renders env2 _ _ r2 tpl tasks h1 h2 htasks h3⟩

/-- Witness of C2: the title `Buy bread` on the example table; the list that follows hands
    a task list to the renderer. -/
theorem createTask_then_getTasks_witness :
    (createTask exampleEnv exampleWorld {} (exampleRequest "" "Buy bread")).2.tasks =
      exampleWorld.tasks ++
        [{ id := 2, title := some "Buy bread", created_at := some "2024-05-01T10:00:00Z",
           updated_at := none }] ∧
    ∃ tasks, (getTasks exampleEnv
        (createTask exampleEnv exampleWorld {} (exampleRequest "" "Buy bread")).2 {}
        (exampleRequest "" "")).2.rendered =
      (createTask exampleEnv exampleWorld {} (exampleRequest "" "Buy bread")).2.rendered
        ++ [tasks] :=
  ⟨(createTask_then_getTasks exampleEnv exampleWorld (exampleRequest "" "Buy bread")
      "Buy bread" rfl (by decide) (by decide) (by decide)).2.2.1,
   (createTask_then_getTasks exampleEnv exampleWorld (exampleRequest "" "Buy bread")
      "Buy bread" rfl (by decide) (by decide) (by decide)).2.2.2.2 exampleEnv
      (exampleRequest "" "") exampleTemplate rfl rfl rfl (by decide)⟩

/-! ## C3: editing an existing task -/

/-- C3: for every table that has a row with id `i` and every edit request with id `i` whose
    form parses and holds a non-empty title `t`, when the update succeeds the table has as
    many rows as before, and row by row: id and `created_at` are unchanged, a row with id
    `i` has title `t` and `updated_at` set to the current time, every other row is
    unchanged; a row with id `i` and title `t` is in the table. -/
theorem editTask_updates_row (env : Env) (σ : World) (r : Request) (i : Nat) (t : String)
    (hid : ParseUint (r.URLQuery.Get "id") = .ok i)
    (hform : r.ParseForm = none) (ht : r.Form.Get "title" = t) (hne : len t ≠ 0)
    (hrow : ∃ row ∈ σ.tasks, row.id = i)
    (hok : (σ.Exec env (.updateTask t env.now i)).1 = none) :
    (editTask env σ {} r).2.tasks.length = σ.tasks.length ∧
    List.Forall₂ (fun old new =>
        new.id = old.id ∧ new.created_at = old.created_at ∧
        (old.id = i → new.title = some t ∧ new.updated_at = some env.now) ∧
        (old.id ≠ i → new = old)) σ.tasks (editTask env σ {} r).2.tasks ∧
    (∃ row ∈ (editTask env σ {} r).2.tasks,
      row.id = i ∧ row.title = some t ∧ row.updated_at ≠ none) := by
  subst ht
  rw [editTask_of_valid env σ {} r i hid hform hne hok]
  simp only [applyStmt]
  refine ⟨by simp, ?_, ?_⟩
  · rw [List.forall₂_map_right_iff]
    apply List.forall₂_same.mpr
    intro row _
    by_cases h : row.id = i <;> simp [h]
  · obtain ⟨row, hmem, hrid⟩ := hrow
    refine ⟨{ row with title := some (r.Form.Get "title"), updated_at := some env.now }, ?_, ?_⟩
    · apply List.mem_map.mpr
      exact ⟨row, hmem, by simp [hrid]⟩
    · simp [hrid]

/-- Witness of C3: task 1 of the example table gets the title `Buy oat milk`. -/
theorem editTask_updates_row_witness :
    (editTask exampleEnv exampleWorld {} (exampleRequest "1" "Buy oat milk")).2.tasks.length
        = exampleWorld.tasks.length ∧
    ∃ row ∈ (editTask exampleEnv exampleWorld {} (exampleRequest "1" "Buy oat milk")).2.tasks,
      row.id = 1 ∧ row.title = some "Buy oat milk" ∧ row.updated_at ≠ none :=
  ⟨(editTask_updates_row exampleEnv exampleWorld (exampleRequest "1" "Buy oat milk") 1
      "Buy oat milk" (by decide) rfl (by decide) (by decide) (by decide) (by decide)).1,
   (editTask_updates_row exampleEnv exampleWorld (exampleRequest "1" "Buy oat milk") 1
      "Buy oat milk" (by decide) rfl (by decide) (by decide) (by decide) (by decide)).2.2⟩

/-! ## C5: deleting a task -/

/-- C5: for every table and every delete request whose id parses to `i`, when the delete
    succeeds `deleteTask` answers 200 with the header `HX-Trigger: get-tasks` and the table
    is the former table without the rows of id `i`: a row is in it exactly when it was in
    the table and its id is not `i`, and no task list a subsequent `getTasks` hands to the
    renderer contains a task with id `i`. -/
theorem deleteTask_removes_row (env : Env) (σ : World) (r : Request) (i : Nat)
    (hid : ParseUint (r.URLQuery.Get "id") = .ok i)
    (hok : (σ.Exec env (.deleteTask i)).1 = none) :
    (deleteTask env σ {} r).1.status = some 200 ∧
    Header.Get (deleteTask env σ {} r).1.sentHeader "HX-Trigger" = "get-tasks" ∧
    (deleteTask env σ {} r).2.tasks = σ.tasks.filter (fun row => row.id ≠ i) ∧
    (∀ row, row ∈ (deleteTask env σ {} r).2.tasks ↔ row ∈ σ.tasks ∧ row.id ≠ i) ∧
    (∀ (env2 : Env) (r2 : Request) (tasks : List Task),
      (getTasks env2 (deleteTask env σ {} r).2 {} r2).2.rendered =
        (deleteTask env σ {} r).2.rendered ++ [tasks] →
      ∀ x ∈ tasks, x.Id ≠ i) := by
  rw [deleteTask_of_valid env σ {} r i hid hok]
  refine ⟨triggerOK_fresh.1, triggerOK_fresh.2.1, rfl, ?_, ?_⟩
  · intro row
    simp [applyStmt, List.mem_filter]
  · intro env2 r2 tasks h x hx
    have hscan := getTasks_rendered env2 _ _ r2 tasks h
    rcases scanRows_row_of_mem _ _ _ hscan x hx with hnil | ⟨row, hrow, hsx⟩
    · simp at hnil
    · obtain ⟨h1, _⟩ := Scan_ok _ _ hsx
      simp only [applyStmt, List.mem_filter, decide_eq_true_eq] at hrow
      rw [h1]
      exact hrow.2

/-- Witness of C5: task 1 of the example table is deleted and the table is empty. -/
theorem deleteTask_removes_row_witness :
    (deleteTask exampleEnv exampleWorld {} (exampleRequest "1" "")).1.status = some 200 ∧
    (deleteTask exampleEnv exampleWorld {} (exampleRequest "1" "")).2.tasks =
      exampleWorld.tasks.filter (fun row => row.id ≠ 1) :=
  ⟨(deleteTask_removes_row exampleEnv exampleWorld (exampleRequest "1" "") 1
      (by decide) (by decide)).1,
   (deleteTask_removes_row exampleEnv exampleWorld (exampleRequest "1" "") 1
      (by decide) (by decide)).2.2.1⟩

/-! ## C6: editing and deleting an id that no row has -/

/-- C6, as stated, fails: the example table has no row with id 7, and when the database
    refuses the statement both `editTask` and `deleteTask` answer a request for id 7 with
    status 500 and without the header `HX-Trigger`. -/
theorem edit_delete_absent_row_db_error :
    (∀ row ∈ exampleWorld.tasks, row.id ≠ 7) ∧
    ParseUint ((exampleRequest "7" "Buy bread").URLQuery.Get "id") = .ok 7 ∧
    (editTask downEnv exampleWorld {} (exampleRequest "7" "Buy bread")).1.status = some 500 ∧
    Header.Get (editTask downEnv exampleWorld {} (exampleRequest "7" "Buy bread")).1.sentHeader
      "HX-Trigger" = "" ∧
    (deleteTask downEnv exampleWorld {} (exampleRequest "7" "Buy bread")).1.status = some 500 ∧
    Header.Get (deleteTask downEnv exampleWorld {} (exampleRequest "7" "Buy bread")).1.sentHeader
      "HX-Trigger" = "" := by
  decide

/-- C6, amended: for every table that has no row with id `i`, an edit request for `i` whose
    form parses and holds a non-empty title and a delete request for `i` leave the table
    exactly as it was; each is answered with 200 and the header `HX-Trigger: get-tasks`
    when the database executes its statement without error, and with 500 and without that
    header when `db.Exec` returns an error. -/
theorem edit_delete_absent_row (env : Env) (σ : World) (re rd : Request) (i : Nat)
    (hrow : ∀ row ∈ σ.tasks, row.id ≠ i)
    (hide : ParseUint (re.URLQuery.Get "id") = .ok i)
    (hform : re.ParseForm = none) (hne : len (re.Form.Get "title") ≠ 0)
    (hidd : ParseUint (rd.URLQuery.Get "id") = .ok i) :
    (editTask env σ {} re).2.tasks = σ.tasks ∧
    (deleteTask env σ {} rd).2.tasks = σ.tasks ∧
    (env.dbErr = none →
      (editTask env σ {} re).1.status = some 200 ∧
      Header.Get (editTask env σ {} re).1.sentHeader "HX-Trigger" = "get-tasks" ∧
      (deleteTask env σ {} rd).1.status = some 200 ∧
      Header.Get (deleteTask env σ {} rd).1.sentHeader "HX-Trigger" = "get-tasks") ∧
    (∀ e, env.dbErr = some e →
      (σ.Exec env (.updateTask (re.Form.Get "title") env.now i)).1 = some e ∧
      (σ.Exec env (.deleteTask i)).1 = some e ∧
      (editTask env σ {} re).1.status = some 500 ∧
      Header.Get (editTask env σ {} re).1.sentHeader "HX-Trigger" = "" ∧
      (editTask env σ {} re).1.body = "failed to edit task: " ++ e ++ "\n" ∧
      (deleteTask env σ {} rd).1.status = some 500 ∧
      Header.Get (deleteTask env σ {} rd).1.sentHeader "HX-Trigger" = "" ∧
      (deleteTask env σ {} rd).1.body = "failed to delete task: " ++ e ++ "\n") := by
  have hlene : ¬ len (re.URLQuery.Get "id") = 0 := by
    intro h0
    rw [(len_eq_zero_iff _).mp h0] at hide
    simp [ParseUint] at hide
  have hlend : ¬ len (rd.URLQuery.Get "id") = 0 := by
    intro h0
    rw [(len_eq_zero_iff _).mp h0] at hidd
    simp [ParseUint] at hidd
  refine ⟨?_, ?_, ?_, ?_⟩
  · rcases editTask_tasks env σ {} re with h | ⟨j, hj, _, h⟩
    · exact h
    · rw [hide] at hj
      cases hj
      rw [h]
      exact applyStmt_update_absent env σ.tasks _ _ i hrow
  · rcases deleteTask_tasks env σ {} rd with h | ⟨j, hj, h⟩
    · exact h
    · rw [hidd] at hj
      cases hj
      rw [h]
      exact applyStmt_delete_absent env σ.tasks i hrow
  · intro hdb
    have hoke : (σ.Exec env (.updateTask (re.Form.Get "title") env.now i)).1 = none :=
      (Exec_fst_none_iff _ _ _).mpr ⟨hdb, rfl⟩
    have hokd : (σ.Exec env (.deleteTask i)).1 = none :=
      (Exec_fst_none_iff _ _ _).mpr ⟨hdb, rfl⟩
    rw [editTask_of_valid env σ {} re i hide hform hne hoke,
      deleteTask_of_valid env σ {} rd i hidd hokd]
    exact ⟨triggerOK_fresh.1, triggerOK_fresh.2.1, triggerOK_fresh.1, triggerOK_fresh.2.1⟩
  · intro e hdb
    have hxe : σ.Exec env (.updateTask (re.Form.Get "title") env.now i) =
        (some e, { σ with calls :=
          σ.calls ++ [.updateTask (re.Form.Get "title") env.now i] }) := by
      simp [World.Exec, hdb]
    have hxd : σ.Exec env (.deleteTask i) =
        (some e, { σ with calls := σ.calls ++ [.deleteTask i] }) := by
      simp [World.Exec, hdb]
    have hee : (editTask env σ {} re).1 =
        http.Error {} ("failed to edit task: " ++ e) StatusInternalServerError := by
      simp [editTask, hlene, hide, hform, checkEmptyString_single _ hne, hxe]
    have hdd : (deleteTask env σ {} rd).1 =
        http.Error {} ("failed to delete task: " ++ e) StatusInternalServerError := by
      simp [deleteTask, hlend, hidd, hxd]
    rw [hee, hdd, hxe, hxd]
    refine ⟨rfl, rfl, http_Error_fresh_status _ _, http_Error_fresh_no_trigger _ _, ?_,
      http_Error_fresh_status _ _, http_Error_fresh_no_trigger _ _, ?_⟩
    · rw [http_Error_fresh_body]
    · rw [http_Error_fresh_body]

/-- Witness of the amended C6: id 7 on the example table, once with the database answering
    and once with the database refusing the statement. -/
theorem edit_delete_absent_row_witness :
    ((editTask exampleEnv exampleWorld {} (exampleRequest "7" "Buy bread")).2.tasks =
        exampleWorld.tasks ∧
      (deleteTask exampleEnv exampleWorld {} (exampleRequest "7" "")).2.tasks =
        exampleWorld.tasks) ∧
    ((editTask exampleEnv exampleWorld {} (exampleRequest "7" "Buy bread")).1.status
        = some 200 ∧
      (deleteTask exampleEnv exampleWorld {} (exampleRequest "7" "")).1.status = some 200) ∧
    ((editTask downEnv exampleWorld {} (exampleRequest "7" "Buy bread")).2.tasks =
        exampleWorld.tasks ∧
      (editTask downEnv exampleWorld {} (exampleRequest "7" "Buy bread")).1.status
        = some 500 ∧
      (deleteTask downEnv exampleWorld {} (exampleRequest "7" "")).1.status = some 500) :=
  ⟨⟨(edit_delete_absent_row exampleEnv exampleWorld (exampleRequest "7" "Buy bread")
        (exampleRequest "7" "") 7 (by decide) (by decide) rfl (by decide) (by decide)).1,
     (edit_delete_absent_row exampleEnv exampleWorld (exampleRequest "7" "Buy bread")
        (exampleRequest "7" "") 7 (by decide) (by decide) rfl (by decide) (by decide)).2.1⟩,
   ⟨((edit_delete_absent_row exampleEnv exampleWorld (exampleRequest "7" "Buy bread")
        (exampleRequest "7" "") 7 (by decide) (by decide) rfl (by decide)
        (by decide)).2.2.1 rfl).1,
     ((edit_delete_absent_row exampleEnv exampleWorld (exampleRequest "7" "Buy bread")
        (exampleRequest "7" "") 7 (by decide) (by decide) rfl (by decide)
        (by decide)).2.2.1 rfl).2.2.1⟩,
   ⟨(edit_delete_absent_row downEnv exampleWorld (exampleRequest "7" "Buy bread")
        (exampleRequest "7" "") 7 (by decide) (by decide) rfl (by decide) (by decide)).1,
     ((edit_delete_absent_row downEnv exampleWorld (exampleRequest "7" "Buy bread")
        (exampleRequest "7" "") 7 (by decide) (by decide) rfl (by decide)
        (by decide)).2.2.2 _ rfl).2.2.1,
     ((edit_delete_absent_row downEnv exampleWorld (exampleRequest "7" "Buy bread")
        (exampleRequest "7" "") 7 (by decide) (by decide) rfl (by decide)
        (by decide)).2.2.2 _ rfl).2.2.2.2.2.1⟩⟩

/-! ## C7: titles are never empty -/

/-- C7: if every row of the table has a non-empty title before a request to `getTasks`,
    `createTask`, `editTask` or `deleteTask`, then every row has one after it, whatever the
    request, the state of the response writer and the answers of the database are. -/
theorem titlesNonEmpty_invariant (env : Env) (σ : World) (w : ResponseWriter) (r : Request)
    (h : titlesNonEmpty σ.tasks) :
    titlesNonEmpty (getTasks env σ w r).2.tasks ∧
    titlesNonEmpty (createTask env σ w r).2.tasks ∧
    titlesNonEmpty (editTask env σ w r).2.tasks ∧
    titlesNonEmpty (deleteTask env σ w r).2.tasks := by
  refine ⟨?_, ?_, ?_, ?_⟩
  · rw [getTasks_tasks]; exact h
  · rcases createTask_tasks env σ w r with hc | ⟨hl, hc⟩
    · rw [hc]; exact h
    · rw [hc]
      intro row hrow
      simp only [applyStmt, List.mem_append, List.mem_singleton] at hrow
      rcases hrow with hrow | hrow
      · exact h row hrow
      · subst hrow
        exact ⟨_, rfl, hl⟩
  · rcases editTask_tasks env σ w r with hc | ⟨i, _, hl, hc⟩
    · rw [hc]; exact h
    · rw [hc]
      intro row hrow
      simp only [applyStmt, List.mem_map] at hrow
      obtain ⟨old, hold, hrow⟩ := hrow
      by_cases hi : old.id = i
      · simp only [hi, if_true] at hrow
        subst hrow
        exact ⟨_, rfl, hl⟩
      · simp only [hi, if_false] at hrow
        subst hrow
        exact h old hold
  · rcases deleteTask_tasks env σ w r with hc | ⟨i, _, hc⟩
    · rw [hc]; exact h
    · rw [hc]
      intro row hrow
      simp only [applyStmt, List.mem_filter] at hrow
      exact h row hrow.1

/-- Witness of C7: an edit of task 1 of the example table keeps every title non-empty. -/
theorem titlesNonEmpty_invariant_witness :
    titlesNonEmpty
      (editTask exampleEnv exampleWorld {} (exampleRequest "1" "Buy oat milk")).2.tasks :=
  (titlesNonEmpty_invariant exampleEnv exampleWorld {} (exampleRequest "1" "Buy oat milk")
    (by
      intro row hrow
      simp only [exampleWorld, List.mem_singleton] at hrow
      subst hrow
      exact ⟨"Buy milk", rfl, by decide⟩)).2.2.1

/-! ## C8: the responses of `getTasks` -/

/-- C8: in `getTasks`, when the query fails, or a row scan, or the iteration over the rows,
    or the parsing of the template, or its execution, the response has status 500 and its
    body is the error message followed by a newline and nothing else (in particular no
    byte of the template's output `buf`); when none of them fails the response has status
    200, the header `Content-Type: text/html; charset=utf-8` and the bytes the template
    wrote as body. The six cases follow the order of the steps in the handler. -/
theorem getTasks_response (env : Env) (σ : World) (r : Request) :
    (∀ e, (σ.Query env).1 = .error e →
      (getTasks env σ {} r).1.status = some 500 ∧
      (getTasks env σ {} r).1.body = "failed to get tasks: " ++ e ++ "\n") ∧
    (∀ rows e, (σ.Query env).1 = .ok rows → scanRows rows.pending [] = .error e →
      (getTasks env σ {} r).1.status = some 500 ∧
      (getTasks env σ {} r).1.body = "failed to scan value: " ++ e ++ "\n") ∧
    (∀ rows tasks e, (σ.Query env).1 = .ok rows → scanRows rows.pending [] = .ok tasks →
      rows.err = some e →
      (getTasks env σ {} r).1.status = some 500 ∧
      (getTasks env σ {} r).1.body = "failed while iterating: " ++ e ++ "\n") ∧
    (∀ rows tasks e, (σ.Query env).1 = .ok rows → scanRows rows.pending [] = .ok tasks →
      rows.err = none → env.ParseFiles = .error e →
      (getTasks env σ {} r).1.status = some 500 ∧
      (getTasks env σ {} r).1.body = "failed to parse template: " ++ e ++ "\n") ∧
    (∀ rows tasks t buf e, (σ.Query env).1 = .ok rows →
      scanRows rows.pending [] = .ok tasks → rows.err = none → env.ParseFiles = .ok t →
      t.Execute tasks = (buf, some e) →
      (getTasks env σ {} r).1.status = some 500 ∧
      (getTasks env σ {} r).1.body = "failed to execute template: " ++ e ++ "\n") ∧
    (∀ rows tasks t buf, (σ.Query env).1 = .ok rows →
      scanRows rows.pending [] = .ok tasks → rows.err = none → env.ParseFiles = .ok t →
      t.Execute tasks = (buf, none) →
      (getTasks env σ {} r).1.status = some 200 ∧
      Header.Get (getTasks env σ {} r).1.sentHeader "Content-Type" =
        "text/html; charset=utf-8" ∧
      (getTasks env σ {} r).1.body = buf) := by
  refine ⟨?_, ?_, ?_, ?_, ?_, ?_⟩
  · intro e hq
    cases hQ : σ.Query env with
    | mk q σ1 =>
    rw [hQ] at hq
    simp only at hq
    subst hq
    simp [getTasks, hQ, http_Error_fresh_status, http_Error_fresh_body,
      StatusInternalServerError]
  · intro rows e hq hs
    cases hQ : σ.Query env with
    | mk q σ1 =>
    rw [hQ] at hq
    simp only at hq
    subst hq
    simp [getTasks, hQ, hs, http_Error_fresh_status, http_Error_fresh_body,
      StatusInternalServerError]
  · intro rows tasks e hq hs he
    cases hQ : σ.Query env with
    | mk q σ1 =>
    rw [hQ] at hq
    simp only at hq
    subst hq
    simp [getTasks, hQ, hs, he, http_Error_fresh_status, http_Error_fresh_body,
      StatusInternalServerError]
  · intro rows tasks e hq hs he hp
    cases hQ : σ.Query env with
    | mk q σ1 =>
    rw [hQ] at hq
    simp only at hq
    subst hq
    simp [getTasks, hQ, hs, he, hp, http_Error_fresh_status, http_Error_fresh_body,
      StatusInternalServerError]
  · intro rows tasks t buf e hq hs he hp hx
    cases hQ : σ.Query env with
    | mk q σ1 =>
    rw [hQ] at hq
    simp only at hq
    subst hq
    simp [getTasks, hQ, hs, he, hp, hx, http_Error_fresh_status, http_Error_fresh_body,
      StatusInternalServerError]
  · intro rows tasks t buf hq hs he hp hx
    cases hQ : σ.Query env with
    | mk q σ1 =>
    rw [hQ] at hq
    simp only at hq
    subst hq
    have hct : Header.Get (Header.Set [] "Content-Type" "text/html; charset=utf-8")
        "Content-Type" = "text/html; charset=utf-8" := by decide
    simp [getTasks, hQ, hs, he, hp, hx, ResponseWriter.Write, ResponseWriter.WriteHeader,
      hct]

/-- Witness of C8: on a table whose only row has a `NULL` title the scan fails and the
    response is 500 with the scan error as body; on the example table the response is the
    rendered list. -/
theorem getTasks_response_witness :
    ((getTasks exampleEnv nullTitleWorld {} (exampleRequest "" "")).1.status = some 500 ∧
      (getTasks exampleEnv nullTitleWorld {} (exampleRequest "" "")).1.body =
        "failed to scan value: " ++ errScanNullTitle ++ "\n") ∧
    ((getTasks exampleEnv exampleWorld {} (exampleRequest "" "")).1.status = some 200 ∧
      Header.Get (getTasks exampleEnv exampleWorld {} (exampleRequest "" "")).1.sentHeader
        "Content-Type" = "text/html; charset=utf-8" ∧
      (getTasks exampleEnv exampleWorld {} (exampleRequest "" "")).1.body =
        "<ul><li>Buy milk</li></ul>") :=
  ⟨(getTasks_response exampleEnv nullTitleWorld (exampleRequest "" "")).2.1
      { pending := nullTitleWorld.tasks, err := none } errScanNullTitle rfl rfl,
   (getTasks_response exampleEnv exampleWorld (exampleRequest "" "")).2.2.2.2.2
      { pending := exampleWorld.tasks, err := none }
      [{ Id := 1, Title := "Buy milk",
         CreatedAt := { String := "2024-04-30T09:00:00Z", Valid := true },
         UpdatedAt := { String := "", Valid := false } }]
      exampleTemplate "<ul><li>Buy milk</li></ul>" rfl rfl rfl rfl (by decide)⟩

/-! ## C9: startup without `PORT` or `DATABASE_URL` -/

/-- C9, as stated, fails: with `PORT` unset the process exits with status 1 before the
    database is opened or the listener started, but the message goes to the standard
    output and nothing is written to the standard error. -/
theorem main_unset_port_writes_stdout :
    (main { environ := [("DATABASE_URL", "postgres://localhost/tasks")],
            dotenv := .ok [], sqlOpen := none, listen := none }).stderr = "" ∧
    main { environ := [("DATABASE_URL", "postgres://localhost/tasks")],
           dotenv := .ok [], sqlOpen := none, listen := none } =
      { stdout := "empty string\n", stderr := "", exit := some 1, opened := none,
        listening := none } := by
  decide

/-- C9, amended: if `PORT` or `DATABASE_URL` is empty or unset in the environment that
    `main` checks (the process environment, completed from the file `.env` when `ENV` is
    `dev`), the process exits with status 1 after writing the error message to the standard
    output (nothing goes to the standard error), and it does so before opening the
    database or starting the listener. -/
theorem main_exits_on_empty_config (sys : Sys) (environ : Environ)
    (henv : startupEnviron sys = .ok environ)
    (h : (environ.lookup "PORT" = none ∨ Getenv environ "PORT" = "") ∨
         (environ.lookup "DATABASE_URL" = none ∨ Getenv environ "DATABASE_URL" = "")) :
    (main sys).exit = some 1 ∧
    (main sys).stdout = "empty string\n" ∧
    (main sys).stderr = "" ∧
    (main sys).opened = none ∧
    (main sys).listening = none := by
  have hget : ∀ key, environ.lookup key = none → Getenv environ key = "" := by
    intro key hk
    simp [Getenv, hk]
  have hc : checkEmptyString [Getenv environ "PORT", Getenv environ "DATABASE_URL"]
      = some errEmptyString := by
    apply (checkEmptyString_some_iff _).mpr
    rcases h with (h | h) | (h | h)
    · exact ⟨_, by simp, (len_eq_zero_iff _).mpr (hget _ h)⟩
    · exact ⟨_, by simp, (len_eq_zero_iff _).mpr h⟩
    · exact ⟨_, by simp, (len_eq_zero_iff _).mpr (hget _ h)⟩
    · exact ⟨_, by simp, (len_eq_zero_iff _).mpr h⟩
  simp [main, henv, hc, exitWith, errEmptyString]

/-- Witness of the amended C9: `ENV=dev`, a file `.env` that defines only `PORT`. -/
theorem main_exits_on_empty_config_witness :
    (main { environ := [("ENV", "dev")], dotenv := .ok [("PORT", "8080")],
            sqlOpen := none, listen := none }).exit = some 1 ∧
    (main { environ := [("ENV", "dev")], dotenv := .ok [("PORT", "8080")],
            sqlOpen := none, listen := none }).stdout = "empty string\n" :=
  ⟨(main_exits_on_empty_config
      { environ := [("ENV", "dev")], dotenv := .ok [("PORT", "8080")],
        sqlOpen := none, listen := none }
      [("ENV", "dev"), ("PORT", "8080")] (by decide) (Or.inr (Or.inl (by decide)))).1,
   (main_exits_on_empty_config
      { environ := [("ENV", "dev")], dotenv := .ok [("PORT", "8080")],
        sqlOpen := none, listen := none }
      [("ENV", "dev"), ("PORT", "8080")] (by decide) (Or.inr (Or.inl (by decide)))).2.1⟩

end GoHtmxRender
